import Mathlib

/-!
Shallow embedding of the relatedness-coefficient core of the pedigree
modeller: the genetics module (coefficient tables, path-based coefficient
formulas, consanguinity compounding, X/Y-linked coefficients), the pedigree
templates, and the dynamic pedigree (merge map, relationship editor,
path-counting calculation).

JavaScript numbers are modelled as exact rationals: every constant in the
source is a small dyadic rational and every arithmetic operation performed
on them (addition, multiplication, halving, powers of 1/2, min) is exact in
binary floating point at these magnitudes, so the rational semantics agrees
with the source's float semantics on all values reached here.

TypeScript Map objects are modelled as association lists with
Map.set overwrite semantics (update in place when the key exists, append
otherwise) and insertion-order iteration, which is what the source relies
on.
-/

/-- Sex of a person, the source's string union of M and F. -/
inductive Sex
  | M
  | F
deriving DecidableEq

/-- The RelationshipType string union from the source's types module. -/
inductive RelationshipType
  | siblings
  | halfSiblings
  | firstCousins
  | secondCousins
  | thirdCousins
  | doubleFirstCousins
  | firstCousinsOnceRemoved
  | avuncular
  | grandparentGrandchild
  | greatGrandparent
  | parentChild
deriving DecidableEq

/-- Person record from the source's types module.  The optional layout
fields x and y are irrelevant to the core and omitted. -/
structure Person where
  id : String
  label : String
  sex : Sex
  generation : Int
  motherId : Option String
  fatherId : Option String
deriving DecidableEq

/-- Ordered parent-child edge. -/
structure ParentChildEdge where
  parentId : String
  childId : String
deriving DecidableEq

/-- Consanguinity link record used by the visible-graph projection. -/
structure ConsanguinityLink where
  person1Id : String
  person2Id : String
  relationship : RelationshipType
deriving DecidableEq

/-- FamilyGraph record: persons keyed by id, parent-child edges, and
consanguinity links. -/
structure FamilyGraph where
  persons : List (String × Person)
  edges : List ParentChildEdge
  consanguinityLinks : List ConsanguinityLink
deriving DecidableEq

/-- One discovered route between the two targets through a common
ancestor. -/
structure AncestorPath where
  personIds : List String
  commonAncestorId : String
  steps : Nat
deriving DecidableEq

/-- Lookup in an association list, the model of Map.get: the first entry
with the given key. -/
def lookupA {α : Type} (m : List (String × α)) (k : String) : Option α :=
  (m.find? (fun e => e.1 == k)).map (fun e => e.2)

/-- Map.set semantics: overwrite in place when the key is present, append
otherwise (JavaScript Map preserves the original insertion position of an
updated key). -/
def setA {α : Type} (m : List (String × α)) (k : String) (v : α) : List (String × α) :=
  if (lookupA m k).isSome then
    m.map (fun e => if e.1 = k then (k, v) else e)
  else
    m ++ [(k, v)]

/-- BASE_COEFFICIENTS table from the genetics module. -/
def BASE_COEFFICIENTS : RelationshipType → ℚ
  | .parentChild => 1/2
  | .siblings => 1/2
  | .halfSiblings => 1/4
  | .grandparentGrandchild => 1/4
  | .avuncular => 1/4
  | .firstCousins => 1/8
  | .doubleFirstCousins => 1/4
  | .firstCousinsOnceRemoved => 1/16
  | .greatGrandparent => 1/8
  | .secondCousins => 1/32
  | .thirdCousins => 1/128

/-- coefficientOfRelationship from the genetics module:
r accumulated over paths as 0.5 ^ steps times (1 + F_A), where F_A is the
ancestor's inbreeding coefficient, defaulting to 0 on a map miss. -/
def coefficientOfRelationship (paths : List AncestorPath)
    (ancestorInbreeding : List (String × ℚ)) : ℚ :=
  paths.foldl (fun r path =>
    let fa := (lookupA ancestorInbreeding path.commonAncestorId).getD 0
    r + (1/2 : ℚ) ^ path.steps * (1 + fa)) 0

/-- inbreedingCoefficient from the genetics module: F accumulated over
paths as 0.5 ^ (steps + 1) times (1 + F_A). -/
def inbreedingCoefficient (paths : List AncestorPath)
    (ancestorInbreeding : List (String × ℚ)) : ℚ :=
  paths.foldl (fun f path =>
    let fa := (lookupA ancestorInbreeding path.commonAncestorId).getD 0
    f + (1/2 : ℚ) ^ (path.steps + 1) * (1 + fa)) 0

/-- geneOverlapProbability from the genetics module: the identity on r. -/
def geneOverlapProbability (r : ℚ) : ℚ := r

/-- The xLinkedTable of the genetics module, keyed by relationship and the
sex pair.  Every relationship row lists all four sex combinations, so the
lookup never misses; the source's null fallback is therefore never taken
and the result is always some value. -/
def xLinkedCoefficient (person1 person2 : Person)
    (relationship : RelationshipType) : Option ℚ :=
  some (match relationship, person1.sex, person2.sex with
  | .parentChild, .M, .M => 0
  | .parentChild, .M, .F => 1
  | .parentChild, .F, .M => 1/2
  | .parentChild, .F, .F => 1/2
  | .siblings, _, _ => 1/2
  | .halfSiblings, _, _ => 1/2
  | .grandparentGrandchild, .M, _ => 0
  | .grandparentGrandchild, .F, _ => 1/4
  | .avuncular, _, _ => 1/4
  | .firstCousins, _, _ => 1/8
  | .doubleFirstCousins, _, _ => 1/4
  | .firstCousinsOnceRemoved, _, _ => 1/16
  | .greatGrandparent, .M, _ => 0
  | .greatGrandparent, .F, _ => 1/8
  | .secondCousins, _, _ => 1/32
  | .thirdCousins, _, _ => 1/128)

/-- The fixed list of strictly patrilineal archetypes from the genetics
module. -/
def patrilinealRelationships : List RelationshipType :=
  [.parentChild, .siblings, .grandparentGrandchild, .avuncular, .firstCousins]

/-- yLinkedCoefficient from the genetics module: 0 immediately unless both
persons are male; 1 for the fixed patrilineal list; 0 for half-siblings
(assumed maternal) and any other relationship. -/
def yLinkedCoefficient (person1 person2 : Person)
    (relationship : RelationshipType) : Option ℚ :=
  if person1.sex ≠ Sex.M ∨ person2.sex ≠ Sex.M then
    some 0
  else if relationship ∈ patrilinealRelationships then
    some 1
  else if relationship = RelationshipType.halfSiblings then
    some 0
  else
    some 0

/-- ProbabilityResult output record.  The X and Y coefficients are nullable
in the source, hence Option here. -/
structure ProbabilityResult where
  coefficientOfRelationship : ℚ
  geneOverlapProbability : ℚ
  inbreedingCoefficient : ℚ
  xLinkedCoefficient : Option ℚ
  yLinkedCoefficient : Option ℚ
  baselineR : ℚ
  deltaFromBaseline : ℚ
deriving DecidableEq

/-- calculateProbabilities from the genetics module: the scalar
(table-based) flow. -/
def calculateProbabilities (person1 person2 : Person)
    (relationship : RelationshipType) (consanguinityFactor : ℚ) :
    ProbabilityResult :=
  let baseR := BASE_COEFFICIENTS relationship
  let adjustedR := baseR * (1 + consanguinityFactor)
  let F := adjustedR / 2
  { coefficientOfRelationship := adjustedR
    geneOverlapProbability := geneOverlapProbability adjustedR
    inbreedingCoefficient := F
    xLinkedCoefficient := xLinkedCoefficient person1 person2 relationship
    yLinkedCoefficient := yLinkedCoefficient person1 person2 relationship
    baselineR := baseR
    deltaFromBaseline := adjustedR - baseR }

/-- getConsanguinityFactor from the genetics module: 0 for a null
relationship, otherwise half the base coefficient of the ancestral
relationship. -/
def getConsanguinityFactor (parentRelationship : Option RelationshipType) : ℚ :=
  match parentRelationship with
  | none => 0
  | some rel => BASE_COEFFICIENTS rel / 2

/-- Generation tiers for compound consanguinity factors. -/
inductive Generation
  | parents
  | grandparents
  | greatGrandparents
deriving DecidableEq

/-- GENERATION_MULTIPLIERS table from the genetics module.  The source's
string-keyed record covers exactly these three tiers (its fallback of 1.0
on a miss is unreachable for this key type). -/
def GENERATION_MULTIPLIERS : Generation → ℚ
  | .parents => 1
  | .grandparents => 1/2
  | .greatGrandparents => 1/4

/-- One compound consanguinity factor input: a generation tier and the
relationship between the ancestors at that tier. -/
structure ConsanguinityFactorInput where
  generation : Generation
  relationship : RelationshipType
deriving DecidableEq

/-- getCompoundConsanguinityFactor from the genetics module: the sum over
factors of the base consanguinity factor scaled by the generation
multiplier. -/
def getCompoundConsanguinityFactor (factors : List ConsanguinityFactorInput) : ℚ :=
  factors.foldl (fun totalFactor factor =>
    totalFactor +
      getConsanguinityFactor (some factor.relationship) *
        GENERATION_MULTIPLIERS factor.generation) 0

/-- C4: for the siblings archetype under the scalar consanguinity flow with
the single factor (ancestor relationship first-cousins at the parents
tier), the compound consanguinity factor is 0.0625 and
calculateProbabilities yields coefficientOfRelationship 0.53125,
inbreedingCoefficient 0.265625, baselineR 0.5 and deltaFromBaseline
0.03125, exactly, for every pair of persons. -/
theorem c4_siblings_parents_first_cousins_scenario (person1 person2 : Person) :
    getCompoundConsanguinityFactor
        [⟨Generation.parents, RelationshipType.firstCousins⟩] = 1/16 ∧
    (calculateProbabilities person1 person2 RelationshipType.siblings
        (getCompoundConsanguinityFactor
          [⟨Generation.parents, RelationshipType.firstCousins⟩])).coefficientOfRelationship
      = 17/32 ∧
    (calculateProbabilities person1 person2 RelationshipType.siblings
        (getCompoundConsanguinityFactor
          [⟨Generation.parents, RelationshipType.firstCousins⟩])).inbreedingCoefficient
      = 17/64 ∧
    (calculateProbabilities person1 person2 RelationshipType.siblings
        (getCompoundConsanguinityFactor
          [⟨Generation.parents, RelationshipType.firstCousins⟩])).baselineR
      = 1/2 ∧
    (calculateProbabilities person1 person2 RelationshipType.siblings
        (getCompoundConsanguinityFactor
          [⟨Generation.parents, RelationshipType.firstCousins⟩])).deltaFromBaseline
      = 1/32 := by
  refine ⟨by norm_num [getCompoundConsanguinityFactor, getConsanguinityFactor,
    GENERATION_MULTIPLIERS, BASE_COEFFICIENTS], ?_, ?_, ?_, ?_⟩ <;>
    norm_num [calculateProbabilities, getCompoundConsanguinityFactor,
      getConsanguinityFactor, GENERATION_MULTIPLIERS, BASE_COEFFICIENTS]

/-- C6: the compound consanguinity total is additive and tier-scaled: for
every ancestral relationship type and tier, two identical factors total
exactly twice the single factor, and a single factor at the
great-grandparents tier totals exactly one quarter of the same relationship
at the parents tier. -/
theorem c6_compound_additive_and_tier_scaled (rel : RelationshipType)
    (tier : Generation) :
    getCompoundConsanguinityFactor [⟨tier, rel⟩, ⟨tier, rel⟩] =
      2 * getCompoundConsanguinityFactor [⟨tier, rel⟩] ∧
    getCompoundConsanguinityFactor [⟨Generation.greatGrandparents, rel⟩] =
      getCompoundConsanguinityFactor [⟨Generation.parents, rel⟩] / 4 := by
  constructor
  · simp only [getCompoundConsanguinityFactor, List.foldl]
    ring
  · simp only [getCompoundConsanguinityFactor, List.foldl,
      GENERATION_MULTIPLIERS]
    ring

/-- C9: yLinkedCoefficient returns the defined value 0 (not null) whenever
either person's sex is not M, for every relationship type; with the
two-valued sex type this is exactly the case where either person is
female. -/
theorem c9_yLinked_zero_unless_both_male (person1 person2 : Person)
    (relationship : RelationshipType)
    (h : person1.sex ≠ Sex.M ∨ person2.sex ≠ Sex.M) :
    yLinkedCoefficient person1 person2 relationship = some 0 := by
  simp only [yLinkedCoefficient, if_pos h]

/-- Witness for C9 at a concrete female-male pair under the siblings
relationship. -/
theorem c9_yLinked_zero_unless_both_male_witness :
    yLinkedCoefficient ⟨"a", "A", Sex.F, 0, none, none⟩
      ⟨"b", "B", Sex.M, 0, none, none⟩ RelationshipType.siblings = some 0 :=
  c9_yLinked_zero_unless_both_male _ _ _ (Or.inl (by decide))

/-- createPerson from the pedigree-templates module. -/
def createPerson (id label : String) (sex : Sex) (generation : Int)
    (motherId fatherId : Option String) : Person :=
  ⟨id, label, sex, generation, motherId, fatherId⟩

/-- createSiblingPedigree from the pedigree-templates module: grandparents,
parents and two sibling children, persons in insertion order. -/
def createSiblingPedigree : FamilyGraph :=
  { persons :=
      [("gf1", createPerson "gf1" "Grandfather 1" Sex.M 0 none none),
       ("gm1", createPerson "gm1" "Grandmother 1" Sex.F 0 none none),
       ("gf2", createPerson "gf2" "Grandfather 2" Sex.M 0 none none),
       ("gm2", createPerson "gm2" "Grandmother 2" Sex.F 0 none none),
       ("father", createPerson "father" "Father" Sex.M 1 (some "gm1") (some "gf1")),
       ("mother", createPerson "mother" "Mother" Sex.F 1 (some "gm2") (some "gf2")),
       ("child1", createPerson "child1" "Sibling A" Sex.M 2 (some "mother") (some "father")),
       ("child2", createPerson "child2" "Sibling B" Sex.F 2 (some "mother") (some "father"))]
    edges :=
      [⟨"gf1", "father"⟩, ⟨"gm1", "father"⟩, ⟨"gf2", "mother"⟩, ⟨"gm2", "mother"⟩,
       ⟨"father", "child1"⟩, ⟨"mother", "child1"⟩, ⟨"father", "child2"⟩, ⟨"mother", "child2"⟩]
    consanguinityLinks := [] }

/-- createCousinsPedigree from the pedigree-templates module: one shared
grandparent couple, two sibling parents with unrelated spouses, and two
cousin children. -/
def createCousinsPedigree : FamilyGraph :=
  { persons :=
      [("gf", createPerson "gf" "Grandfather" Sex.M 0 none none),
       ("gm", createPerson "gm" "Grandmother" Sex.F 0 none none),
       ("parent1", createPerson "parent1" "Parent 1" Sex.M 1 (some "gm") (some "gf")),
       ("parent2", createPerson "parent2" "Parent 2" Sex.M 1 (some "gm") (some "gf")),
       ("spouse1", createPerson "spouse1" "Spouse 1" Sex.F 1 none none),
       ("spouse2", createPerson "spouse2" "Spouse 2" Sex.F 1 none none),
       ("cousin1", createPerson "cousin1" "Cousin A" Sex.M 2 (some "spouse1") (some "parent1")),
       ("cousin2", createPerson "cousin2" "Cousin B" Sex.F 2 (some "spouse2") (some "parent2"))]
    edges :=
      [⟨"gf", "parent1"⟩, ⟨"gm", "parent1"⟩, ⟨"gf", "parent2"⟩, ⟨"gm", "parent2"⟩,
       ⟨"parent1", "cousin1"⟩, ⟨"spouse1", "cousin1"⟩, ⟨"parent2", "cousin2"⟩,
       ⟨"spouse2", "cousin2"⟩]
    consanguinityLinks := [] }

/-- getPedigreeForRelationship from the pedigree-templates module: the
sibling pedigree for siblings and half-siblings, the cousins pedigree for
all cousin-like archetypes, and the sibling pedigree as the default. -/
def getPedigreeForRelationship (relationship : RelationshipType) : FamilyGraph :=
  match relationship with
  | .siblings => createSiblingPedigree
  | .halfSiblings => createSiblingPedigree
  | .firstCousins => createCousinsPedigree
  | .doubleFirstCousins => createCousinsPedigree
  | .secondCousins => createCousinsPedigree
  | .thirdCousins => createCousinsPedigree
  | .firstCousinsOnceRemoved => createCousinsPedigree
  | _ => createSiblingPedigree

/-- getSelectedPairIds from the pedigree-templates module. -/
def getSelectedPairIds (relationship : RelationshipType) : String × String :=
  match relationship with
  | .siblings => ("child1", "child2")
  | .halfSiblings => ("child1", "child2")
  | .firstCousins => ("cousin1", "cousin2")
  | .doubleFirstCousins => ("cousin1", "cousin2")
  | .secondCousins => ("cousin1", "cousin2")
  | .thirdCousins => ("cousin1", "cousin2")
  | .firstCousinsOnceRemoved => ("cousin1", "cousin2")
  | _ => ("child1", "child2")

/-- getAllAncestors from the genetics module, with its shared mutable
visited set threaded through explicitly (the source mutates one visited
set across all recursive calls and returns the ancestor map).  The source
recurses on the graph guarded only by the visited set; here the recursion
is driven by a fuel counter, and every call site passes fuel strictly
larger than the depth of the source's call tree (each nested source call
adds a fresh id to the visited set, so the depth is at most the number of
persons plus one), making the two agree. -/
def getAllAncestorsAux (graph : FamilyGraph) :
    Nat → String → List String → (List (String × List String)) × List String
  | 0, _, visited => ([], visited)
  | fuel + 1, personId, visited =>
    if visited.contains personId then ([], visited)
    else
      let visited1 := visited ++ [personId]
      match lookupA graph.persons personId with
      | none => ([], visited1)
      | some person =>
        let parentIds := [person.motherId, person.fatherId].filterMap id
        parentIds.foldl
          (fun (acc : (List (String × List String)) × List String) parentId =>
            let ancestors1 := setA acc.1 parentId [personId]
            let res := getAllAncestorsAux graph fuel parentId acc.2
            let ancestors2 := res.1.foldl
              (fun a gp => setA a gp.1 (personId :: gp.2)) ancestors1
            (ancestors2, res.2))
          (([] : List (String × List String)), visited1)

/-- Entry point of getAllAncestors: fresh visited set, and fuel exceeding
the person count as explained on the auxiliary function. -/
def getAllAncestors (personId : String) (graph : FamilyGraph) :
    List (String × List String) :=
  (getAllAncestorsAux graph (graph.persons.length + 1) personId []).1

/-- findAncestorPaths from the genetics module: intersect the two ancestor
maps and emit one AncestorPath per common ancestor, with steps the sum of
the two recorded path lengths. -/
def findAncestorPaths (person1Id person2Id : String) (graph : FamilyGraph) :
    List AncestorPath :=
  let ancestors1 := getAllAncestors person1Id graph
  let ancestors2 := getAllAncestors person2Id graph
  ancestors1.foldl
    (fun paths entry =>
      match lookupA ancestors2 entry.1 with
      | none => paths
      | some path2 =>
        paths ++ [{ personIds := entry.2 ++ [entry.1] ++ path2.reverse,
                    commonAncestorId := entry.1,
                    steps := entry.2.length + path2.length }]) []

/-- The path-based coefficient computation of the claim: ancestor paths on
the generated template graph for the archetype's selected target pair, fed
to coefficientOfRelationship with an empty ancestor-inbreeding map. -/
def pathBasedR (relationship : RelationshipType) : ℚ :=
  coefficientOfRelationship
    (findAncestorPaths (getSelectedPairIds relationship).1
      (getSelectedPairIds relationship).2
      (getPedigreeForRelationship relationship)) []

/-- Concrete evaluation of the ancestor paths on the sibling template: six
common ancestors (both parents and all four grandparents). -/
theorem findAncestorPaths_sibling_template :
    findAncestorPaths "child1" "child2" createSiblingPedigree =
      [⟨["child1", "mother", "child2"], "mother", 2⟩,
       ⟨["child1", "mother", "gm2", "mother", "child2"], "gm2", 4⟩,
       ⟨["child1", "mother", "gf2", "mother", "child2"], "gf2", 4⟩,
       ⟨["child1", "father", "child2"], "father", 2⟩,
       ⟨["child1", "father", "gm1", "father", "child2"], "gm1", 4⟩,
       ⟨["child1", "father", "gf1", "father", "child2"], "gf1", 4⟩] := by
  decide

/-- Concrete evaluation of the ancestor paths on the cousins template: two
common ancestors (the shared grandparent couple). -/
theorem findAncestorPaths_cousins_template :
    findAncestorPaths "cousin1" "cousin2" createCousinsPedigree =
      [⟨["cousin1", "parent1", "gm", "parent2", "cousin2"], "gm", 4⟩,
       ⟨["cousin1", "parent1", "gf", "parent2", "cousin2"], "gf", 4⟩] := by
  decide

/-- The path-based value for the siblings archetype is 0.75. -/
theorem pathBasedR_siblings_eq : pathBasedR RelationshipType.siblings = 3/4 := by
  rw [pathBasedR]
  rw [show getSelectedPairIds RelationshipType.siblings = ("child1", "child2") from rfl]
  rw [show getPedigreeForRelationship RelationshipType.siblings
        = createSiblingPedigree from rfl]
  rw [findAncestorPaths_sibling_template]
  norm_num [coefficientOfRelationship, lookupA, List.foldl]

/-- The path-based value for the first-cousins archetype is 0.125. -/
theorem pathBasedR_firstCousins_eq :
    pathBasedR RelationshipType.firstCousins = 1/8 := by
  rw [pathBasedR]
  rw [show getSelectedPairIds RelationshipType.firstCousins
        = ("cousin1", "cousin2") from rfl]
  rw [show getPedigreeForRelationship RelationshipType.firstCousins
        = createCousinsPedigree from rfl]
  rw [findAncestorPaths_cousins_template]
  norm_num [coefficientOfRelationship, lookupA, List.foldl]

/-- The path-based value for the second-cousins archetype is also 0.125,
because its template falls back to the cousins pedigree. -/
theorem pathBasedR_secondCousins_eq :
    pathBasedR RelationshipType.secondCousins = 1/8 := by
  rw [pathBasedR]
  rw [show getSelectedPairIds RelationshipType.secondCousins
        = ("cousin1", "cousin2") from rfl]
  rw [show getPedigreeForRelationship RelationshipType.secondCousins
        = createCousinsPedigree from rfl]
  rw [findAncestorPaths_cousins_template]
  norm_num [coefficientOfRelationship, lookupA, List.foldl]

/-- C1 counterexample: on the siblings template the path-based computation
does not return the documented baseline 0.5 — the parents and all four
grandparents are each counted as separate common ancestors, giving 0.75. -/
theorem c1_counterexample_siblings_path_r :
    pathBasedR RelationshipType.siblings ≠ 1/2 := by
  rw [pathBasedR_siblings_eq]
  norm_num

/-- C1 amended: the actual path-based values are 0.75 for siblings (parent
paths and grandparent paths are both summed), 0.125 for first-cousins
(matching its baseline), and 0.125 for second-cousins (whose template
reuses the first-cousins graph). -/
theorem c1_path_based_values :
    pathBasedR RelationshipType.siblings = 3/4 ∧
    pathBasedR RelationshipType.firstCousins = 1/8 ∧
    pathBasedR RelationshipType.secondCousins = 1/8 :=
  ⟨pathBasedR_siblings_eq, pathBasedR_firstCousins_eq, pathBasedR_secondCousins_eq⟩

/-- Auxiliary for C8: when the second ancestor map is empty every lookup in
the intersection loop misses, so the path accumulator is returned
unchanged. -/
theorem findAncestorPaths_foldl_empty
    (l : List (String × List String)) (acc : List AncestorPath) :
    l.foldl
      (fun paths entry =>
        match lookupA ([] : List (String × List String)) entry.1 with
        | none => paths
        | some path2 =>
          paths ++ [{ personIds := entry.2 ++ [entry.1] ++ path2.reverse,
                      commonAncestorId := entry.1,
                      steps := entry.2.length + path2.length }]) acc = acc := by
  induction l generalizing acc with
  | nil => rfl
  | cons head tail ih => simp only [List.foldl, lookupA, List.find?]; exact ih acc

/-- Auxiliary for C8: an id absent from the person map has no ancestors
(the traversal looks the person up and returns the empty map). -/
theorem getAllAncestors_absent (graph : FamilyGraph) (personId : String)
    (h : lookupA graph.persons personId = none) :
    getAllAncestors personId graph = [] := by
  simp [getAllAncestors, getAllAncestorsAux, h]

/-- C8: for every graph and pair of target ids, if either target is absent
from the graph's person map then findAncestorPaths returns the empty path
list. -/
theorem c8_absent_target_empty_paths (graph : FamilyGraph)
    (person1Id person2Id : String)
    (h : lookupA graph.persons person1Id = none ∨
         lookupA graph.persons person2Id = none) :
    findAncestorPaths person1Id person2Id graph = [] := by
  rcases h with h1 | h2
  · rw [findAncestorPaths]
    rw [getAllAncestors_absent graph person1Id h1]
    rfl
  · rw [findAncestorPaths]
    rw [getAllAncestors_absent graph person2Id h2]
    exact findAncestorPaths_foldl_empty _ _

/-- Witness for C8: the id nobody is absent from the sibling template, and
path-finding from it returns no paths. -/
theorem c8_absent_target_empty_paths_witness :
    lookupA createSiblingPedigree.persons "nobody" = none ∧
    findAncestorPaths "nobody" "child2" createSiblingPedigree = [] :=
  ⟨by decide,
    c8_absent_target_empty_paths createSiblingPedigree "nobody" "child2"
      (Or.inl (by decide))⟩

/-- Declared relationship types accepted by the relationship editor. -/
inductive DeclType
  | siblings
  | halfSiblings
  | spouse
  | firstCousins
  | secondCousins
  | unrelated
deriving DecidableEq

/-- A user-declared relationship between two nodes. -/
structure NodeRelationship where
  person1Id : String
  person2Id : String
  type : DeclType
deriving DecidableEq

/-- DynamicPedigree state from the dynamic-pedigree module. -/
structure DynamicPedigree where
  persons : List (String × Person)
  edges : List ParentChildEdge
  definedRelationships : List NodeRelationship
  targetPair : String × String
  merges : List (String × String)
deriving DecidableEq

/-- Person constructor used by generateBasePedigree: no parent
back-references are set on these nodes. -/
def basePerson (id label : String) (sex : Sex) (generation : Int) : Person :=
  ⟨id, label, sex, generation, none, none⟩

/-- generateBasePedigree from the dynamic-pedigree module: the initial
node/edge layout for each base relationship archetype, with an empty
declaration log and an empty merge map. -/
def generateBasePedigree (baseRelationship : RelationshipType)
    (person1Sex person2Sex : Sex) : DynamicPedigree :=
  let mk := fun (persons : List (String × Person)) (edges : List ParentChildEdge) =>
    { persons := persons, edges := edges, definedRelationships := []
      targetPair := ("p1", "p2"), merges := [] : DynamicPedigree }
  match baseRelationship with
  | .siblings | .halfSiblings =>
    mk
      [("p1", basePerson "p1" "Sibling A" person1Sex 2),
       ("p2", basePerson "p2" "Sibling B" person2Sex 2),
       ("father", basePerson "father" "Father" Sex.M 1),
       ("mother", basePerson "mother" "Mother" Sex.F 1),
       ("gf1", basePerson "gf1" "Grandfather 1" Sex.M 0),
       ("gm1", basePerson "gm1" "Grandmother 1" Sex.F 0),
       ("gf2", basePerson "gf2" "Grandfather 2" Sex.M 0),
       ("gm2", basePerson "gm2" "Grandmother 2" Sex.F 0)]
      [⟨"father", "p1"⟩, ⟨"mother", "p1"⟩, ⟨"father", "p2"⟩, ⟨"mother", "p2"⟩,
       ⟨"gf1", "father"⟩, ⟨"gm1", "father"⟩, ⟨"gf2", "mother"⟩, ⟨"gm2", "mother"⟩]
  | .firstCousins =>
    mk
      [("p1", basePerson "p1" "Cousin A" person1Sex 2),
       ("p2", basePerson "p2" "Cousin B" person2Sex 2),
       ("father1", basePerson "father1" "Parent A1" Sex.M 1),
       ("mother1", basePerson "mother1" "Parent A2" Sex.F 1),
       ("father2", basePerson "father2" "Parent B1" Sex.M 1),
       ("mother2", basePerson "mother2" "Parent B2" Sex.F 1),
       ("gf-shared", basePerson "gf-shared" "Shared Grandfather" Sex.M 0),
       ("gm-shared", basePerson "gm-shared" "Shared Grandmother" Sex.F 0),
       ("gf-a", basePerson "gf-a" "Grandfather A" Sex.M 0),
       ("gm-a", basePerson "gm-a" "Grandmother A" Sex.F 0),
       ("gf-b", basePerson "gf-b" "Grandfather B" Sex.M 0),
       ("gm-b", basePerson "gm-b" "Grandmother B" Sex.F 0)]
      [⟨"father1", "p1"⟩, ⟨"mother1", "p1"⟩, ⟨"father2", "p2"⟩, ⟨"mother2", "p2"⟩,
       ⟨"gf-shared", "father1"⟩, ⟨"gm-shared", "father1"⟩,
       ⟨"gf-shared", "father2"⟩, ⟨"gm-shared", "father2"⟩,
       ⟨"gf-a", "mother1"⟩, ⟨"gm-a", "mother1"⟩,
       ⟨"gf-b", "mother2"⟩, ⟨"gm-b", "mother2"⟩]
  | .doubleFirstCousins =>
    mk
      [("p1", basePerson "p1" "Cousin A" person1Sex 2),
       ("p2", basePerson "p2" "Cousin B" person2Sex 2),
       ("father1", basePerson "father1" "Father A" Sex.M 1),
       ("mother1", basePerson "mother1" "Mother A" Sex.F 1),
       ("father2", basePerson "father2" "Father B" Sex.M 1),
       ("mother2", basePerson "mother2" "Mother B" Sex.F 1),
       ("gf1", basePerson "gf1" "Grandfather 1" Sex.M 0),
       ("gm1", basePerson "gm1" "Grandmother 1" Sex.F 0),
       ("gf2", basePerson "gf2" "Grandfather 2" Sex.M 0),
       ("gm2", basePerson "gm2" "Grandmother 2" Sex.F 0)]
      [⟨"father1", "p1"⟩, ⟨"mother1", "p1"⟩, ⟨"father2", "p2"⟩, ⟨"mother2", "p2"⟩,
       ⟨"gf1", "father1"⟩, ⟨"gm1", "father1"⟩, ⟨"gf1", "father2"⟩, ⟨"gm1", "father2"⟩,
       ⟨"gf2", "mother1"⟩, ⟨"gm2", "mother1"⟩, ⟨"gf2", "mother2"⟩, ⟨"gm2", "mother2"⟩]
  | .avuncular =>
    let otherSex := match person1Sex with
      | Sex.M => Sex.F
      | Sex.F => Sex.M
    mk
      [("p1", basePerson "p1" "Uncle/Aunt" person1Sex 1),
       ("p2", basePerson "p2" "Nephew/Niece" person2Sex 2),
       ("sibling", basePerson "sibling" "Parent" otherSex 1),
       ("spouse", basePerson "spouse" "Spouse" otherSex 1),
       ("gf", basePerson "gf" "Grandfather" Sex.M 0),
       ("gm", basePerson "gm" "Grandmother" Sex.F 0),
       ("gf-spouse", basePerson "gf-spouse" "Grandfather (in-law)" Sex.M 0),
       ("gm-spouse", basePerson "gm-spouse" "Grandmother (in-law)" Sex.F 0)]
      [⟨"sibling", "p2"⟩, ⟨"spouse", "p2"⟩, ⟨"gf", "p1"⟩, ⟨"gm", "p1"⟩,
       ⟨"gf", "sibling"⟩, ⟨"gm", "sibling"⟩,
       ⟨"gf-spouse", "spouse"⟩, ⟨"gm-spouse", "spouse"⟩]
  | .secondCousins =>
    mk
      [("p1", basePerson "p1" "Cousin A" person1Sex 3),
       ("p2", basePerson "p2" "Cousin B" person2Sex 3),
       ("parent1", basePerson "parent1" "Parent A" Sex.M 2),
       ("parent2", basePerson "parent2" "Parent B" Sex.M 2),
       ("gp1", basePerson "gp1" "Grandparent A" Sex.M 1),
       ("gp2", basePerson "gp2" "Grandparent B" Sex.M 1),
       ("ggp-shared", basePerson "ggp-shared" "Shared Great-GP" Sex.M 0)]
      [⟨"parent1", "p1"⟩, ⟨"parent2", "p2"⟩, ⟨"gp1", "parent1"⟩, ⟨"gp2", "parent2"⟩,
       ⟨"ggp-shared", "gp1"⟩, ⟨"ggp-shared", "gp2"⟩]
  | _ =>
    mk
      [("p1", basePerson "p1" "Person A" person1Sex 2),
       ("p2", basePerson "p2" "Person B" person2Sex 2),
       ("father", basePerson "father" "Father" Sex.M 1),
       ("mother", basePerson "mother" "Mother" Sex.F 1)]
      [⟨"father", "p1"⟩, ⟨"mother", "p1"⟩, ⟨"father", "p2"⟩, ⟨"mother", "p2"⟩]

/-- One iteration bundle for resolveId: the source's resolveId is the loop
  let resolved = id; while (merges.has(resolved)) resolved = merges.get(resolved);
resolveN merges n id is the loop variable after at most n iterations (the
loop stops early as soon as the id leaves the map's domain). -/
def resolveN (merges : List (String × String)) : Nat → String → String
  | 0, id => id
  | n + 1, id =>
    match lookupA merges id with
    | none => id
    | some v => resolveN merges n v

/-- The source's while loop terminates on this input exactly when some
iterate leaves the domain of the merge map. -/
def ResolveTerminates (merges : List (String × String)) (id : String) : Prop :=
  ∃ n, lookupA merges (resolveN merges n id) = none

/-- The source's while loop returns r exactly when r is an iterate that is
outside the domain of the merge map (the loop then stops at r). -/
def ResolvesTo (merges : List (String × String)) (id r : String) : Prop :=
  ∃ n, resolveN merges n id = r ∧ lookupA merges r = none

/-- Total model of resolveId used by the traversal and projection code:
the loop run for at most as many iterations as the map has entries.  On an
acyclic merge map every chain passes through pairwise-distinct keys, so it
leaves the domain within that many iterations and this equals the source's
while-loop result; the concrete pedigrees evaluated below all have acyclic
merge maps. -/
def resolveId (id : String) (merges : List (String × String)) : String :=
  resolveN merges merges.length id

/-- Upward adjacency built by findAllPaths: child id (resolved) to the list
of its resolved parent ids, in edge order. -/
def buildParentOf (pedigree : DynamicPedigree) : List (String × List String) :=
  pedigree.edges.foldl
    (fun parentOf edge =>
      let resolved := resolveId edge.childId pedigree.merges
      let existing := (lookupA parentOf resolved).getD []
      setA parentOf resolved
        (existing ++ [resolveId edge.parentId pedigree.merges])) []

/-- State of the ancestor DFS in findAllPaths: the ancestor depth map and
the visited set, both mutated by the source's nested dfs closure. -/
structure AncestorSearchState where
  ancestors : List (String × Nat)
  visited : List String
deriving DecidableEq

/-- The dfs closure inside findAllPaths, with its two mutable structures
threaded explicitly.  A node already visited returns immediately even if it
was just reached at a smaller depth; the depth map entry of a parent is
updated when the new depth is smaller.  Fuel drives the recursion; each
nested source call adds a fresh id to the visited set, so any fuel larger
than the number of distinct ids appearing in the adjacency makes the model
agree with the source. -/
def ancestorDfs (parentOf : List (String × List String)) :
    Nat → String → Nat → AncestorSearchState → AncestorSearchState
  | 0, _, _, s => s
  | fuel + 1, current, depth, s =>
    if s.visited.contains current then s
    else
      let s1 : AncestorSearchState := ⟨s.ancestors, s.visited ++ [current]⟩
      let parents := (lookupA parentOf current).getD []
      parents.foldl
        (fun st parent =>
          let st1 : AncestorSearchState :=
            match lookupA st.ancestors parent with
            | none => ⟨setA st.ancestors parent (depth + 1), st.visited⟩
            | some d =>
              if d > depth + 1 then ⟨setA st.ancestors parent (depth + 1), st.visited⟩
              else st
          ancestorDfs parentOf fuel parent (depth + 1) st1) s1

/-- getAncestors from findAllPaths: run the dfs from the resolved target at
depth 0 with fresh state.  Fuel is twice the edge count plus two, an upper
bound on the number of distinct ids in the adjacency plus one. -/
def getAncestors (pedigree : DynamicPedigree) (id : String) : List (String × Nat) :=
  (ancestorDfs (buildParentOf pedigree) (2 * pedigree.edges.length + 2)
    (resolveId id pedigree.merges) 0 ⟨[], []⟩).ancestors

/-- findAllPaths from the dynamic-pedigree module: intersect the two
ancestor depth maps; for each common ancestor emit a path represented as
the ancestor id repeated depth1 + depth2 + 1 times (the source tracks only
the length). -/
def findAllPaths (id1 id2 : String) (pedigree : DynamicPedigree) :
    List (List String) :=
  let ancestors1 := getAncestors pedigree id1
  let ancestors2 := getAncestors pedigree id2
  let commonAncestors :=
    (ancestors1.map (fun e => e.1)).filter
      (fun a => (lookupA ancestors2 a).isSome)
  commonAncestors.map
    (fun ancestor =>
      List.replicate
        ((lookupA ancestors1 ancestor).getD 0 +
          (lookupA ancestors2 ancestor).getD 0 + 1) ancestor)

/-- Result record of calculateFromPedigree. -/
structure PedigreeCalcResult where
  coefficientOfRelationship : ℚ
  inbreedingCoefficient : ℚ
  contributingPaths : List (List String)
deriving DecidableEq

/-- The raw path sum of calculateFromPedigree before the cap: the sum over
discovered paths of 0.5 to the number of steps (path length minus one). -/
def pedigreeRawSum (pedigree : DynamicPedigree) : ℚ :=
  (findAllPaths pedigree.targetPair.1 pedigree.targetPair.2 pedigree).foldl
    (fun r path => r + (1/2 : ℚ) ^ (path.length - 1)) 0

/-- calculateFromPedigree from the dynamic-pedigree module: the returned
coefficient of relationship is the raw sum capped at 1, while the
inbreeding coefficient is half of the uncapped raw sum. -/
def calculateFromPedigree (pedigree : DynamicPedigree) : PedigreeCalcResult :=
  let paths := findAllPaths pedigree.targetPair.1 pedigree.targetPair.2 pedigree
  let r := paths.foldl (fun r path => r + (1/2 : ℚ) ^ (path.length - 1)) 0
  { coefficientOfRelationship := min r 1
    inbreedingCoefficient := r / 2
    contributingPaths := paths }

/-- Parent-id scan used by addRelationship: the parent ids of the edges
whose raw (unresolved) child id matches. -/
def parentsOfRaw (pedigree : DynamicPedigree) (personId : String) : List String :=
  (pedigree.edges.filter (fun e => e.childId == personId)).map
    (fun e => e.parentId)

/-- Sex-directed parent pick used by addRelationship: the first scanned
parent whose person record carries the requested sex. -/
def findParentBySex (pedigree : DynamicPedigree) (parents : List String)
    (sex : Sex) : Option String :=
  parents.find? (fun p =>
    match lookupA pedigree.persons p with
    | some person => person.sex == sex
    | none => false)

/-- addRelationship from the dynamic-pedigree module: append the
declaration to the log unconditionally; for siblings merge B's father into
A's father and B's mother into A's mother (when both exist and differ); for
half-siblings merge only the father side; all other declaration types leave
the merge map unchanged. -/
def addRelationship (pedigree : DynamicPedigree) (person1Id person2Id : String)
    (relationshipType : DeclType) : DynamicPedigree :=
  let withLog :=
    { pedigree with
        definedRelationships :=
          pedigree.definedRelationships ++
            [⟨person1Id, person2Id, relationshipType⟩] }
  if relationshipType = DeclType.siblings then
    let parents1 := parentsOfRaw pedigree person1Id
    let parents2 := parentsOfRaw pedigree person2Id
    let father1 := findParentBySex pedigree parents1 Sex.M
    let father2 := findParentBySex pedigree parents2 Sex.M
    let mother1 := findParentBySex pedigree parents1 Sex.F
    let mother2 := findParentBySex pedigree parents2 Sex.F
    let merges1 :=
      match father1, father2 with
      | some f1, some f2 => if f1 ≠ f2 then setA pedigree.merges f2 f1 else pedigree.merges
      | _, _ => pedigree.merges
    let merges2 :=
      match mother1, mother2 with
      | some m1, some m2 => if m1 ≠ m2 then setA merges1 m2 m1 else merges1
      | _, _ => merges1
    { withLog with merges := merges2 }
  else if relationshipType = DeclType.halfSiblings then
    let parents1 := parentsOfRaw pedigree person1Id
    let parents2 := parentsOfRaw pedigree person2Id
    let father1 := findParentBySex pedigree parents1 Sex.M
    let father2 := findParentBySex pedigree parents2 Sex.M
    let merges1 :=
      match father1, father2 with
      | some f1, some f2 => if f1 ≠ f2 then setA pedigree.merges f2 f1 else pedigree.merges
      | _, _ => pedigree.merges
    { withLog with merges := merges1 }
  else
    withLog

/-- Declared-type to link-relationship mapping used by pedigreeToGraph. -/
def declToLinkRelationship : DeclType → RelationshipType
  | DeclType.firstCousins => RelationshipType.firstCousins
  | DeclType.secondCousins => RelationshipType.secondCousins
  | DeclType.halfSiblings => RelationshipType.halfSiblings
  | _ => RelationshipType.siblings

/-- pedigreeToGraph from the dynamic-pedigree module: persons minus
merged-away ones, edges with resolved ids and duplicates collapsed, and one
consanguinity link per declared relationship that is neither unrelated nor
spouse. -/
def pedigreeToGraph (pedigree : DynamicPedigree) : FamilyGraph :=
  let persons :=
    pedigree.persons.filter (fun e => (lookupA pedigree.merges e.1).isNone)
  let edges :=
    pedigree.edges.foldl
      (fun es edge =>
        let parentId := resolveId edge.parentId pedigree.merges
        let childId := resolveId edge.childId pedigree.merges
        if es.any (fun x => x.parentId == parentId && x.childId == childId) then es
        else es ++ [⟨parentId, childId⟩])
      []
  let links :=
    pedigree.definedRelationships.foldl
      (fun ls rel =>
        if rel.type ≠ DeclType.unrelated ∧ rel.type ≠ DeclType.spouse then
          ls ++ [⟨resolveId rel.person1Id pedigree.merges,
                  resolveId rel.person2Id pedigree.merges,
                  declToLinkRelationship rel.type⟩]
        else ls)
      []
  ⟨persons, edges, links⟩

/-- A merge map whose chain from either of two keys alternates between them
forever: the while-loop condition of the source's resolveId stays true at
every iterate, so the loop never terminates and never produces a result. -/
theorem twoCycle_no_termination (m : List (String × String)) (a b : String)
    (ha : lookupA m a = some b) (hb : lookupA m b = some a) :
    (∀ n, (lookupA m (resolveN m n a)).isSome = true) ∧
    ¬ ResolveTerminates m a ∧ (∀ r, ¬ ResolvesTo m a r) := by
  have key : ∀ n id, (id = a ∨ id = b) →
      (resolveN m n id = a ∨ resolveN m n id = b) := by
    intro n
    induction n with
    | zero => intro id h; simpa [resolveN] using h
    | succ n ih =>
      intro id h
      rcases h with h | h <;> subst h
      · simp only [resolveN, ha]
        exact ih b (Or.inr rfl)
      · simp only [resolveN, hb]
        exact ih a (Or.inl rfl)
  have stuck : ∀ n, (lookupA m (resolveN m n a)).isSome = true := by
    intro n
    rcases key n a (Or.inl rfl) with h | h <;> rw [h] <;> simp [ha, hb]
  refine ⟨stuck, ?_, ?_⟩
  · rintro ⟨n, hn⟩
    have := stuck n
    rw [hn] at this
    simp at this
  · rintro r ⟨n, hres, hnone⟩
    have := stuck n
    rw [hres, hnone] at this
    simp at this

/-- The malformed merge map of the claim: a maps to b and b maps to a. -/
def cyclicMerges : List (String × String) := [("a", "b"), ("b", "a")]

/-- C2 fails on the code: on the cyclic merge map mapping a to b and b to a,
every iterate of the source's resolveId loop is still inside the map's
domain, so the while loop never exits — resolution does not terminate,
contradicting the claimed bound by the node count.  (The fails-closed part
of the claim is genuine: an id with no mapping is returned unchanged, which
is the zero-iteration case of the loop.) -/
theorem c2_resolveId_loops_forever_on_cycle :
    (∀ n, (lookupA cyclicMerges (resolveN cyclicMerges n "a")).isSome = true) ∧
    ¬ ResolveTerminates cyclicMerges "a" ∧
    (∀ r, ¬ ResolvesTo cyclicMerges "a" r) :=
  twoCycle_no_termination cyclicMerges "a" "b" (by decide) (by decide)

/-- The concrete declaration sequence of the C3 counterexample: the
first-cousins base pedigree, then siblings declared between the two targets
in both orders. -/
def c3After : DynamicPedigree :=
  addRelationship
    (addRelationship (generateBasePedigree RelationshipType.firstCousins Sex.M Sex.F)
      "p1" "p2" DeclType.siblings)
    "p2" "p1" DeclType.siblings

/-- C3 fails on the code: starting from an acyclic (empty) merge map,
declaring siblings between p1 and p2 and then siblings between p2 and p1
produces a merge map in which father1 maps to father2 and father2 back to
father1 (and likewise the mothers) — a node ultimately maps back to itself,
and resolution from it never terminates. -/
theorem c3_addRelationship_creates_merge_cycle :
    c3After.merges =
      [("father2", "father1"), ("mother2", "mother1"),
       ("father1", "father2"), ("mother1", "mother2")] ∧
    resolveN c3After.merges 2 "father1" = "father1" ∧
    (lookupA c3After.merges "father1").isSome = true ∧
    ¬ ResolveTerminates c3After.merges "father1" := by
  refine ⟨by decide, by decide, by decide, ?_⟩
  exact (twoCycle_no_termination c3After.merges "father1" "father2"
    (by decide) (by decide)).2.1

/-- The C7 counterexample pedigree: target T has parents A and B; A's line
runs A, X, G, H upward while B is a child of G directly, so H is reachable
from T in four edges through A but in three edges through B. -/
def c7Pedigree : DynamicPedigree :=
  { persons :=
      [("T", basePerson "T" "Target" Sex.M 3),
       ("A", basePerson "A" "Parent A" Sex.M 2),
       ("B", basePerson "B" "Parent B" Sex.F 2),
       ("X", basePerson "X" "Grandparent X" Sex.M 1),
       ("G", basePerson "G" "Ancestor G" Sex.M 1),
       ("H", basePerson "H" "Ancestor H" Sex.M 0)]
    edges :=
      [⟨"A", "T"⟩, ⟨"B", "T"⟩, ⟨"X", "A"⟩, ⟨"G", "X"⟩, ⟨"G", "B"⟩, ⟨"H", "G"⟩]
    definedRelationships := []
    targetPair := ("T", "T")
    merges := [] }

/-- A Boolean check that a list of ids is a chain in the upward adjacency:
each id is followed by one of its recorded parents. -/
def isUpChain (parentOf : List (String × List String)) : List String → Bool
  | [] => true
  | [_] => true
  | x :: y :: rest =>
    ((lookupA parentOf x).getD []).contains y && isUpChain parentOf (y :: rest)

/-- C7 fails on the code: in the counterexample pedigree the traversal from
T records depth 4 for ancestor H, although T, B, G, H is an upward chain
over the resolved parent adjacency with only 3 edges — the visited-set
early return prevents the shorter depth found later through B from
propagating to H, so the recorded depth is not the minimum. -/
theorem c7_recorded_depth_not_shortest :
    lookupA (getAncestors c7Pedigree "T") "H" = some 4 ∧
    isUpChain (buildParentOf c7Pedigree) ["T", "B", "G", "H"] = true ∧
    ["T", "B", "G", "H"].length - 1 = 3 := by
  refine ⟨by decide, by decide, by decide⟩

/-- C10: for every pedigree, the returned coefficient of relationship is
the raw path sum capped at 1 (hence at most 1), the returned inbreeding
coefficient is half of the uncapped raw sum, and whenever the raw sum
exceeds 1 the returned inbreeding coefficient exceeds half of the returned
coefficient of relationship. -/
theorem c10_cap_and_uncapped_half (pedigree : DynamicPedigree) :
    (calculateFromPedigree pedigree).coefficientOfRelationship =
      min (pedigreeRawSum pedigree) 1 ∧
    (calculateFromPedigree pedigree).coefficientOfRelationship ≤ 1 ∧
    (calculateFromPedigree pedigree).inbreedingCoefficient =
      pedigreeRawSum pedigree / 2 ∧
    (1 < pedigreeRawSum pedigree →
      (calculateFromPedigree pedigree).coefficientOfRelationship / 2 <
        (calculateFromPedigree pedigree).inbreedingCoefficient) := by
  refine ⟨rfl, min_le_right _ _, rfl, ?_⟩
  intro h
  have hcoeff : (calculateFromPedigree pedigree).coefficientOfRelationship =
      min (pedigreeRawSum pedigree) 1 := rfl
  have hF : (calculateFromPedigree pedigree).inbreedingCoefficient =
      pedigreeRawSum pedigree / 2 := rfl
  rw [hcoeff, hF, min_eq_right h.le]
  linarith

/-- Pedigree on which the raw path sum exceeds 1: five distinct shared
parents give five paths of two edges each, summing to 1.25. -/
def overcountedPedigree : DynamicPedigree :=
  { persons := []
    edges :=
      [⟨"x1", "p1"⟩, ⟨"x1", "p2"⟩, ⟨"x2", "p1"⟩, ⟨"x2", "p2"⟩,
       ⟨"x3", "p1"⟩, ⟨"x3", "p2"⟩, ⟨"x4", "p1"⟩, ⟨"x4", "p2"⟩,
       ⟨"x5", "p1"⟩, ⟨"x5", "p2"⟩]
    definedRelationships := []
    targetPair := ("p1", "p2")
    merges := [] }

/-- The raw path sum of the overcounted pedigree is 1.25. -/
theorem overcountedPedigree_rawSum : pedigreeRawSum overcountedPedigree = 5/4 := by
  rw [pedigreeRawSum]
  rw [show findAllPaths overcountedPedigree.targetPair.1
        overcountedPedigree.targetPair.2 overcountedPedigree =
      [["x1", "x1", "x1"], ["x2", "x2", "x2"], ["x3", "x3", "x3"],
       ["x4", "x4", "x4"], ["x5", "x5", "x5"]] from by decide]
  norm_num [List.foldl]

/-- Witness for C10 at the overcounted pedigree: the raw sum 1.25 exceeds
1, the returned coefficient is capped while the returned inbreeding
coefficient is half the uncapped sum and exceeds half the coefficient. -/
theorem c10_cap_and_uncapped_half_witness :
    1 < pedigreeRawSum overcountedPedigree ∧
    (calculateFromPedigree overcountedPedigree).coefficientOfRelationship / 2 <
      (calculateFromPedigree overcountedPedigree).inbreedingCoefficient :=
  ⟨by rw [overcountedPedigree_rawSum]; norm_num,
   (c10_cap_and_uncapped_half overcountedPedigree).2.2.2
     (by rw [overcountedPedigree_rawSum]; norm_num)⟩

/-- Lookup at a cons cell: the head when its key matches, the tail lookup
otherwise. -/
theorem lookupA_cons {α : Type} (e : String × α) (rest : List (String × α))
    (k : String) :
    lookupA (e :: rest) k = if e.1 = k then some e.2 else lookupA rest k := by
  by_cases h : e.1 = k
  · simp [lookupA, List.find?, h]
  · have hb : (e.1 == k) = false := beq_eq_false_iff_ne.mpr h
    simp [lookupA, List.find?, hb, h]

/-- Overwriting an existing key leaves lookups of other keys unchanged. -/
theorem lookupA_overwrite_ne {α : Type} (m : List (String × α)) (k x : String)
    (v : α) (hx : x ≠ k) :
    lookupA (m.map (fun e => if e.1 = k then (k, v) else e)) x = lookupA m x := by
  induction m with
  | nil => rfl
  | cons e rest ih =>
    by_cases hk : e.1 = k
    · rw [List.map_cons, if_pos hk, lookupA_cons, lookupA_cons, hk,
        if_neg (fun h => hx h.symm), if_neg (fun h => hx h.symm)]
      exact ih
    · rw [List.map_cons, if_neg hk, lookupA_cons, lookupA_cons]
      by_cases he : e.1 = x
      · rw [if_pos he, if_pos he]
      · rw [if_neg he, if_neg he]
        exact ih

/-- Overwriting an existing key makes its lookup return the new value. -/
theorem lookupA_overwrite_self {α : Type} (m : List (String × α)) (k : String)
    (v : α) (h : (lookupA m k).isSome = true) :
    lookupA (m.map (fun e => if e.1 = k then (k, v) else e)) k = some v := by
  induction m with
  | nil => simp [lookupA] at h
  | cons e rest ih =>
    by_cases hk : e.1 = k
    · rw [List.map_cons, if_pos hk, lookupA_cons, if_pos rfl]
    · rw [lookupA_cons, if_neg hk] at h
      rw [List.map_cons, if_neg hk, lookupA_cons, if_neg hk]
      exact ih h

/-- Appending entries after a miss forwards the lookup to the appended
part. -/
theorem lookupA_append_of_none {α : Type} (m1 m2 : List (String × α))
    (k : String) (h : lookupA m1 k = none) :
    lookupA (m1 ++ m2) k = lookupA m2 k := by
  induction m1 with
  | nil => rfl
  | cons e rest ih =>
    rw [lookupA_cons] at h
    by_cases he : e.1 = k
    · rw [if_pos he] at h
      exact absurd h (by simp)
    · rw [if_neg he] at h
      rw [List.cons_append, lookupA_cons, if_neg he]
      exact ih h

/-- Appending entries leaves a successful lookup unchanged. -/
theorem lookupA_append_of_ne {α : Type} (m1 : List (String × α))
    (e2 : String × α) (k : String) (h : k ≠ e2.1) :
    lookupA (m1 ++ [e2]) k = lookupA m1 k := by
  induction m1 with
  | nil =>
    rw [List.nil_append, lookupA_cons, if_neg (fun hh => h hh.symm)]
  | cons e rest ih =>
    rw [List.cons_append, lookupA_cons, lookupA_cons]
    by_cases he : e.1 = k
    · rw [if_pos he, if_pos he]
    · rw [if_neg he, if_neg he]
      exact ih

/-- Map.set makes the written key look up the written value. -/
theorem lookupA_setA_self {α : Type} (m : List (String × α)) (k : String)
    (v : α) : lookupA (setA m k v) k = some v := by
  rw [setA]
  by_cases h : (lookupA m k).isSome = true
  · rw [if_pos h]
    exact lookupA_overwrite_self m k v h
  · rw [if_neg h]
    have hnone : lookupA m k = none := by
      cases hl : lookupA m k with
      | none => rfl
      | some w => rw [hl] at h; exact absurd rfl h
    rw [lookupA_append_of_none m [(k, v)] k hnone, lookupA_cons, if_pos rfl]

/-- Map.set leaves every other key's lookup unchanged. -/
theorem lookupA_setA_ne {α : Type} (m : List (String × α)) (k x : String)
    (v : α) (hx : x ≠ k) : lookupA (setA m k v) x = lookupA m x := by
  rw [setA]
  by_cases h : (lookupA m k).isSome = true
  · rw [if_pos h]
    exact lookupA_overwrite_ne m k x v hx
  · rw [if_neg h]
    exact lookupA_append_of_ne m (k, v) x hx

/-- A successful lookup exhibits the entry in the list. -/
theorem mem_of_lookupA {α : Type} (m : List (String × α)) (k : String) (v : α)
    (h : lookupA m k = some v) : (k, v) ∈ m := by
  rw [lookupA] at h
  cases hf : m.find? (fun e => e.1 == k) with
  | none => rw [hf] at h; simp at h
  | some e =>
    rw [hf] at h
    have hpred := List.find?_some hf
    have hmem := List.mem_of_find?_eq_some hf
    obtain ⟨e1, e2⟩ := e
    have hk : e1 = k := by simpa using hpred
    have hv : e2 = v := by simpa using h
    rw [← hk, ← hv]
    exact hmem

/-- The parent id returned by the sex-directed scan names a person of that
sex in the person map. -/
theorem findParentBySex_spec (pedigree : DynamicPedigree) (parents : List String)
    (sex : Sex) (p : String) (h : findParentBySex pedigree parents sex = some p) :
    ∃ person, lookupA pedigree.persons p = some person ∧ person.sex = sex := by
  have hp := List.find?_some h
  cases hl : lookupA pedigree.persons p with
  | none => rw [hl] at hp; simp at hp
  | some person =>
    rw [hl] at hp
    exact ⟨person, rfl, by simpa using hp⟩

/-- addRelationship never touches the person map. -/
theorem addRelationship_persons (pedigree : DynamicPedigree)
    (person1Id person2Id : String) (relationshipType : DeclType) :
    (addRelationship pedigree person1Id person2Id relationshipType).persons =
      pedigree.persons := by
  rcases relationshipType <;> simp [addRelationship]

/-- Structural effect of a half-siblings declaration when both sides have
distinct fathers: exactly one merge-map insertion, B's father to A's
father. -/
theorem addRelationship_halfSiblings_merges (pedigree : DynamicPedigree)
    (person1Id person2Id fA fB : String)
    (hfa : findParentBySex pedigree (parentsOfRaw pedigree person1Id) Sex.M = some fA)
    (hfb : findParentBySex pedigree (parentsOfRaw pedigree person2Id) Sex.M = some fB)
    (hff : fA ≠ fB) :
    (addRelationship pedigree person1Id person2Id DeclType.halfSiblings).merges =
      setA pedigree.merges fB fA := by
  simp [addRelationship, hfa, hfb, hff]

/-- C5: for every pedigree in which the two persons have distinct fathers
and distinct mothers (by the source's edge scan), and whose mothers are not
already merged away, declaring half-siblings adds exactly the one merge of
B's father into A's father; whatever A's father resolves to, B's father now
resolves to the same canonical id; neither mother id is in the domain of
the new merge map; and both mothers remain present (as distinct ids) in
the visible graph's person list. -/
theorem c5_halfSiblings_merges_father_side_only (pedigree : DynamicPedigree)
    (person1Id person2Id fA fB mA mB : String)
    (hfa : findParentBySex pedigree (parentsOfRaw pedigree person1Id) Sex.M = some fA)
    (hfb : findParentBySex pedigree (parentsOfRaw pedigree person2Id) Sex.M = some fB)
    (hff : fA ≠ fB)
    (hma : findParentBySex pedigree (parentsOfRaw pedigree person1Id) Sex.F = some mA)
    (hmb : findParentBySex pedigree (parentsOfRaw pedigree person2Id) Sex.F = some mB)
    (hmm : mA ≠ mB)
    (hmaU : lookupA pedigree.merges mA = none)
    (hmbU : lookupA pedigree.merges mB = none) :
    (addRelationship pedigree person1Id person2Id DeclType.halfSiblings).merges =
      setA pedigree.merges fB fA ∧
    (∀ c, ResolvesTo
        (addRelationship pedigree person1Id person2Id DeclType.halfSiblings).merges fA c →
      ResolvesTo
        (addRelationship pedigree person1Id person2Id DeclType.halfSiblings).merges fB c) ∧
    lookupA (addRelationship pedigree person1Id person2Id DeclType.halfSiblings).merges mA
      = none ∧
    lookupA (addRelationship pedigree person1Id person2Id DeclType.halfSiblings).merges mB
      = none ∧
    (∃ pm, (mA, pm) ∈
      (pedigreeToGraph (addRelationship pedigree person1Id person2Id
        DeclType.halfSiblings)).persons) ∧
    (∃ pm, (mB, pm) ∈
      (pedigreeToGraph (addRelationship pedigree person1Id person2Id
        DeclType.halfSiblings)).persons) := by
  have hmg := addRelationship_halfSiblings_merges pedigree person1Id person2Id fA fB
    hfa hfb hff
  obtain ⟨pfB, hlfB, hsfB⟩ := findParentBySex_spec pedigree _ _ fB hfb
  obtain ⟨pmA, hlmA, hsmA⟩ := findParentBySex_spec pedigree _ _ mA hma
  obtain ⟨pmB, hlmB, hsmB⟩ := findParentBySex_spec pedigree _ _ mB hmb
  have hmAfB : mA ≠ fB := by
    intro h
    rw [h, hlfB] at hlmA
    have hpe : pfB = pmA := Option.some.inj hlmA
    rw [hpe, hsmA] at hsfB
    exact absurd hsfB (by decide)
  have hmBfB : mB ≠ fB := by
    intro h
    rw [h, hlfB] at hlmB
    have hpe : pfB = pmB := Option.some.inj hlmB
    rw [hpe, hsmB] at hsfB
    exact absurd hsfB (by decide)
  have hlA : lookupA
      (addRelationship pedigree person1Id person2Id DeclType.halfSiblings).merges mA
        = none := by
    rw [hmg, lookupA_setA_ne _ _ _ _ hmAfB]
    exact hmaU
  have hlB : lookupA
      (addRelationship pedigree person1Id person2Id DeclType.halfSiblings).merges mB
        = none := by
    rw [hmg, lookupA_setA_ne _ _ _ _ hmBfB]
    exact hmbU
  refine ⟨hmg, ?_, hlA, hlB, ?_, ?_⟩
  · rintro c ⟨n, hres, hnone⟩
    rw [hmg] at hres hnone
    refine ⟨n + 1, ?_, ?_⟩
    · rw [hmg]
      simp only [resolveN, lookupA_setA_self]
      exact hres
    · rw [hmg]
      exact hnone
  · refine ⟨pmA, ?_⟩
    have hproj : (pedigreeToGraph (addRelationship pedigree person1Id person2Id
        DeclType.halfSiblings)).persons =
      (addRelationship pedigree person1Id person2Id
        DeclType.halfSiblings).persons.filter
        (fun e => (lookupA (addRelationship pedigree person1Id person2Id
          DeclType.halfSiblings).merges e.1).isNone) := rfl
    rw [hproj, addRelationship_persons]
    refine List.mem_filter.mpr ⟨mem_of_lookupA _ _ _ hlmA, ?_⟩
    simp [hlA]
  · refine ⟨pmB, ?_⟩
    have hproj : (pedigreeToGraph (addRelationship pedigree person1Id person2Id
        DeclType.halfSiblings)).persons =
      (addRelationship pedigree person1Id person2Id
        DeclType.halfSiblings).persons.filter
        (fun e => (lookupA (addRelationship pedigree person1Id person2Id
          DeclType.halfSiblings).merges e.1).isNone) := rfl
    rw [hproj, addRelationship_persons]
    refine List.mem_filter.mpr ⟨mem_of_lookupA _ _ _ hlmB, ?_⟩
    simp [hlB]

/-- Witness for C5 on the first-cousins base pedigree, whose two targets
have the distinct fathers father1 and father2 and the distinct mothers
mother1 and mother2, with an empty merge map. -/
theorem c5_halfSiblings_merges_father_side_only_witness :
    (addRelationship (generateBasePedigree RelationshipType.firstCousins Sex.M Sex.F)
        "p1" "p2" DeclType.halfSiblings).merges =
      setA (generateBasePedigree RelationshipType.firstCousins Sex.M Sex.F).merges
        "father2" "father1" ∧
    (∀ c, ResolvesTo
        (addRelationship (generateBasePedigree RelationshipType.firstCousins Sex.M Sex.F)
          "p1" "p2" DeclType.halfSiblings).merges "father1" c →
      ResolvesTo
        (addRelationship (generateBasePedigree RelationshipType.firstCousins Sex.M Sex.F)
          "p1" "p2" DeclType.halfSiblings).merges "father2" c) ∧
    lookupA (addRelationship (generateBasePedigree RelationshipType.firstCousins Sex.M Sex.F)
        "p1" "p2" DeclType.halfSiblings).merges "mother1" = none ∧
    lookupA (addRelationship (generateBasePedigree RelationshipType.firstCousins Sex.M Sex.F)
        "p1" "p2" DeclType.halfSiblings).merges "mother2" = none ∧
    (∃ pm, ("mother1", pm) ∈
      (pedigreeToGraph (addRelationship
        (generateBasePedigree RelationshipType.firstCousins Sex.M Sex.F)
        "p1" "p2" DeclType.halfSiblings)).persons) ∧
    (∃ pm, ("mother2", pm) ∈
      (pedigreeToGraph (addRelationship
        (generateBasePedigree RelationshipType.firstCousins Sex.M Sex.F)
        "p1" "p2" DeclType.halfSiblings)).persons) :=
  c5_halfSiblings_merges_father_side_only
    (generateBasePedigree RelationshipType.firstCousins Sex.M Sex.F)
    "p1" "p2" "father1" "father2" "mother1" "mother2"
    (by decide) (by decide) (by decide) (by decide) (by decide) (by decide)
    (by decide) (by decide)
